import Mathlib

/-
Verification of the healthcare triage system's core scoring logic.

Shallow embedding of:
  src/models/symptom_analyzer.py  (LightweightSymptomAnalyzer)
  src/models/image_analyzer.py    (LightweightImageAnalyzer)
  src/utils/triage_logic.py       (TriageLogic)

Python strings are modelled as lists of characters; Python float
arithmetic on the small exact constants used here (keyword scores,
priority weights, minute counts) is modelled over the rationals ℚ.
-/

set_option maxHeartbeats 1000000
set_option autoImplicit false

namespace HealthTriage

/-- Python whitespace class used by str.strip, str.split and the regex
class in clean_text: space, tab, newline, carriage return, vertical
tab and form feed. -/
def isPySpace (c : Char) : Bool :=
  c = ' ' || c = '\t' || c = '\n' || c = '\r' || c = '\x0b' || c = '\x0c'

/-- ASCII regex word-character class (letters, digits, underscore);
input is already lower-cased when this is applied. -/
def isWordChar (c : Char) : Bool :=
  c.isAlphanum || c = '_'

/-- Whether the first list is an initial segment of the second
(helper for the Python substring test). -/
def headMatch : List Char → List Char → Bool
  | [], _ => true
  | _ :: _, [] => false
  | a :: as, b :: bs => a = b && headMatch as bs

/-- Python substring containment: kw occurs contiguously in t
(the semantics of the expression keyword in text). -/
def containsSub : List Char → List Char → Bool
  | kw, [] => kw.isEmpty
  | kw, c :: rest => headMatch kw (c :: rest) || containsSub kw rest

/-- Replace each maximal run of whitespace with a single space; the
Boolean records whether the previous character was inside such a run.
Models re.sub of a whitespace-run pattern by a single space. -/
def collapseWSAux : Bool → List Char → List Char
  | _, [] => []
  | prevWS, c :: cs =>
      if isPySpace c then
        if prevWS then collapseWSAux true cs
        else ' ' :: collapseWSAux true cs
      else c :: collapseWSAux false cs

/-- Python str.strip: drop leading and trailing whitespace. -/
def pyStrip (l : List Char) : List Char :=
  ((l.dropWhile isPySpace).reverse.dropWhile isPySpace).reverse

namespace SymptomAnalyzer

/-- The severity_keywords table of LightweightSymptomAnalyzer: the four
keyword groups (critical, urgent, moderate, low) in dict insertion
order, each with its group score. -/
def severity_keywords : List (List String × ℚ) :=
  [ (["chest pain", "difficulty breathing", "severe bleeding", "unconscious",
      "stroke", "heart attack", "severe allergic reaction"], 10),
    (["high fever", "severe pain", "vomiting blood", "severe headache",
      "difficulty swallowing", "severe burns"], 7),
    (["fever", "headache", "nausea", "dizziness", "fatigue", "cough",
      "stomach pain"], 4),
    (["mild pain", "runny nose", "slight fever", "minor cut", "bruise",
      "sore throat"], 2) ]

/-- The (keyword, score) pairs in the order the nested loops of the
analyzer visit them. -/
def keyword_scores : List (String × ℚ) :=
  severity_keywords.flatMap (fun g => g.1.map (fun k => (k, g.2)))

/-- All severity keywords in loop order (as iterated by
extract_key_symptoms and calculate_confidence). -/
def all_keywords : List String :=
  keyword_scores.map Prod.fst

/-- clean_text: lower-case, strip, replace every character that is
neither a word character nor whitespace by a space, then collapse
whitespace runs to single spaces. -/
def clean_text (text : List Char) : List Char :=
  collapseWSAux false
    ((pyStrip (text.map Char.toLower)).map
      (fun c => if isWordChar c || isPySpace c then c else ' '))

/-- The accumulation step of calculate_severity_lightweight: when the
keyword occurs in the text, add its score to the running total and
bump the match count. -/
def severityStep (text : List Char) (acc : ℚ × ℕ) (kp : String × ℚ) : ℚ × ℕ :=
  if containsSub kp.1.toList text then (acc.1 + kp.2, acc.2 + 1) else acc

/-- calculate_severity_lightweight: scan every keyword of the four
groups; if no keyword matches return the default 3.0, otherwise the
average score over the matches, capped at 10. -/
def calculate_severity_lightweight (text : List Char) : ℚ :=
  let acc := keyword_scores.foldl (severityStep text) (0, 0)
  if acc.2 = 0 then 3 else min (acc.1 / (acc.2 : ℚ)) 10

/-- calculate_priority of the symptom analyzer (severity thresholds
8 / 6 / 4). -/
def calculate_priority (severity_score : ℚ) : String :=
  if severity_score ≥ 8 then "CRITICAL"
  else if severity_score ≥ 6 then "URGENT"
  else if severity_score ≥ 4 then "MODERATE"
  else "LOW"

/-- extract_key_symptoms: the keywords occurring in the text, with
duplicates removed, truncated to five entries.  The source pipes the
matched list through a Python set whose iteration order is
unspecified; the embedding keeps the scan order, which realises one
admissible order, and only order-independent properties are proved
about the result. -/
def extract_key_symptoms (text : List Char) : List String :=
  (((all_keywords.filter (fun kw => containsSub kw.toList text))).dedup).take 5

/-- Python str.split with no separator: split on whitespace runs,
discarding empty pieces; acc holds the current word reversed. -/
def splitWSAux : List Char → List Char → List (List Char)
  | acc, [] => if acc.isEmpty then [] else [acc.reverse]
  | acc, c :: cs =>
      if isPySpace c then
        if acc.isEmpty then splitWSAux [] cs
        else acc.reverse :: splitWSAux [] cs
      else splitWSAux (c :: acc) cs

/-- The word list of a text, as used for the word count. -/
def pyWords (l : List Char) : List (List Char) :=
  splitWSAux [] l

/-- Round-half-up to an integer.  Python round() on floats uses
round-half-to-even; the two agree except at exact decimal half-ties,
which no verified claim exercises. -/
def roundHalfUp (q : ℚ) : ℤ :=
  Int.floor (q + 1 / 2)

/-- Rounding to d decimal places, modelling round(x, d). -/
def roundTo (d : ℕ) (q : ℚ) : ℚ :=
  (roundHalfUp (q * 10 ^ d) : ℚ) / 10 ^ d

/-- calculate_confidence: matched-keyword count over word count times
100, capped at 95, rounded to one decimal; 0.0 for an empty word
list. -/
def calculate_confidence (text : List Char) : ℚ :=
  let word_count := (pyWords text).length
  let symptom_matches :=
    (all_keywords.filter (fun kw => containsSub kw.toList text)).length
  if word_count = 0 then 0
  else roundTo 1 (min ((symptom_matches : ℚ) / (word_count : ℚ) * 100) 95)

/-- The fields of the analyze_symptoms result mapping that the verified
claims refer to; the remaining fields (specialty, recommendations and
the wait-time display string) are fixed lookup tables not consulted by
any claim. -/
structure SymptomResult where
  severity_score : ℚ
  priority_level : String
  key_symptoms : List String
  urgency_flag : Bool
  confidence_score : ℚ
deriving Repr, DecidableEq

/-- analyze_symptoms: clean the text, compute the severity, priority,
key symptoms and confidence; the reported severity is rounded to two
decimals while priority and the urgency flag use the raw severity. -/
def analyze_symptoms (symptom_text : List Char) : SymptomResult :=
  let cleaned_text := clean_text symptom_text
  let severity_score := calculate_severity_lightweight cleaned_text
  { severity_score := roundTo 2 severity_score
    priority_level := calculate_priority severity_score
    key_symptoms := extract_key_symptoms cleaned_text
    urgency_flag := decide ((7 : ℚ) < severity_score)
    confidence_score := calculate_confidence cleaned_text }

end SymptomAnalyzer

namespace TriageLogic

/-- The four priority tiers keyed by the priority_weights and
wait_time_thresholds dictionaries of TriageLogic.  Queue entries carry
one of exactly these four tier strings (any other key would raise in
the source), so the tier domain is modelled as an enumeration. -/
inductive Priority where
  | CRITICAL
  | URGENT
  | MODERATE
  | LOW
deriving Repr, DecidableEq

/-- The dictionary key / display string of a tier. -/
def Priority.name : Priority → String
  | .CRITICAL => "CRITICAL"
  | .URGENT => "URGENT"
  | .MODERATE => "MODERATE"
  | .LOW => "LOW"

/-- The priority_weights dictionary of TriageLogic. -/
def priority_weights : Priority → ℚ
  | .CRITICAL => 1
  | .URGENT => 8 / 10
  | .MODERATE => 5 / 10
  | .LOW => 2 / 10

/-- The wait_time_thresholds dictionary of TriageLogic, in minutes
(15 min, 1 h, 3 h, 4 h). -/
def wait_time_thresholds : Priority → ℚ
  | .CRITICAL => 15
  | .URGENT => 60
  | .MODERATE => 180
  | .LOW => 240

/-- get_priority_level of TriageLogic: severity thresholds 8 / 6 / 4.
The source returns the tier string, recovered here via Priority.name. -/
def get_priority_level (severity_score : ℚ) : Priority :=
  if severity_score ≥ 8 then .CRITICAL
  else if severity_score ≥ 6 then .URGENT
  else if severity_score ≥ 4 then .MODERATE
  else .LOW

/-- calculate_queue_position: the new position starts at 1 and is
bumped once for every queue entry whose priority weight strictly
exceeds the new entry's weight; returns (position, priority).  The
arrival_time argument is accepted but never read by the source. -/
def calculate_queue_position (severity_score : ℚ) (_arrivalTime : ℚ)
    (current_queue : List Priority) : ℕ × Priority :=
  let priority := get_priority_level severity_score
  let weight := priority_weights priority
  let position := current_queue.foldl
    (fun pos patient =>
      if priority_weights patient > weight then pos + 1 else pos) 1
  (position, priority)

/-- estimate_wait_time: queue position times the average per-patient
processing time (minutes), scaled by (1 - priority weight), capped at
the tier's wait-time threshold.  The source formats this duration as a
display string afterwards; the embedding returns the duration itself. -/
def estimate_wait_time (queue_position : ℕ) (priority : Priority)
    (avg_processing_time : ℚ) : ℚ :=
  let base_wait := (queue_position : ℚ) * avg_processing_time
  let priority_factor := priority_weights priority
  let adjusted_wait := base_wait * (1 - priority_factor)
  let max_wait := wait_time_thresholds priority
  min adjusted_wait max_wait

end TriageLogic

namespace ImageAnalyzer

/-- The color_analysis mapping produced by analyze_colors
(color_uniformity is the standard deviation of the hue channel). -/
structure ColorAnalysis where
  mean_hue : ℚ
  mean_saturation : ℚ
  mean_brightness : ℚ
  red_percentage : ℚ
  color_uniformity : ℚ
deriving Repr, DecidableEq

/-- The texture_analysis mapping produced by analyze_texture. -/
structure TextureAnalysis where
  texture_variance : ℚ
  edge_density : ℚ
  smoothness : ℚ
deriving Repr, DecidableEq

/-- The shape_analysis mapping produced by analyze_shapes. -/
structure ShapeAnalysis where
  contour_count : ℕ
  largest_area : ℚ
  circularity : ℚ
  irregularity_score : ℚ
deriving Repr, DecidableEq

/-- calculate_image_severity: start from 0 and add the fixed bonuses
for each fired feature rule in source order, then cap at 10. -/
def calculate_image_severity (color : ColorAnalysis) (texture : TextureAnalysis)
    (shape : ShapeAnalysis) : ℚ :=
  let severity : ℚ := 0
  let severity := if color.red_percentage > 20 then severity + 3 else severity
  let severity := if color.color_uniformity > 50 then severity + 2 else severity
  let severity := if texture.texture_variance > 1000 then severity + 2 else severity
  let severity := if texture.edge_density > 30 then severity + 1 else severity
  let severity := if shape.irregularity_score > 7 / 10 then severity + 2 else severity
  let severity := if shape.contour_count > 5 then severity + 1 else severity
  min severity 10

/-- The confidence entry of the analyze_image_features result:
min(85.0, max(40.0, severity_score * 10)). -/
def image_confidence (severity_score : ℚ) : ℚ :=
  min 85 (max 40 (severity_score * 10))

/-- generate_findings: fixed threshold messages, with a default message
when none fires. -/
def generate_findings (color : ColorAnalysis) (texture : TextureAnalysis)
    (shape : ShapeAnalysis) : List String :=
  let findings :=
    (if color.red_percentage > 15 then
      ["Possible inflammation or irritation detected"] else []) ++
    (if texture.texture_variance > 1500 then
      ["Irregular texture patterns observed"] else []) ++
    (if shape.irregularity_score > 6 / 10 then
      ["Irregular shape characteristics noted"] else []) ++
    (if color.color_uniformity > 60 then
      ["Non-uniform coloration detected"] else [])
  if findings.isEmpty then
    ["No significant abnormalities detected in basic analysis"]
  else findings

/-- generate_image_recommendations keyed on the severity score; the
recommendation strings are kept abstract by tier since only the error
path's recommendation text is consulted by a claim. -/
def generate_image_recommendations (severity : ℚ) : List String :=
  if severity ≥ 7 then
    ["Immediate medical attention recommended",
     "Document changes with photos",
     "Visit emergency care or urgent care center",
     "Note any associated symptoms"]
  else if severity ≥ 4 then
    ["Schedule appointment with healthcare provider",
     "Monitor for changes",
     "Take photos to track progression",
     "Consider dermatology consultation if skin-related"]
  else
    ["Continue monitoring",
     "Basic home care may be sufficient",
     "Contact healthcare provider if symptoms worsen",
     "Keep record of any changes"]

/-- The analysis_results mapping built by analyze_image_features from
the three feature groups. -/
structure AnalysisResults where
  color_analysis : ColorAnalysis
  texture_analysis : TextureAnalysis
  shape_analysis : ShapeAnalysis
  severity_score : ℚ
  confidence : ℚ
  findings : List String
deriving Repr, DecidableEq

/-- analyze_image_features, given the extracted feature groups (the
pixel-level extraction by the imaging libraries is outside the
embedding; it either yields these three groups or raises, which
analyze_image models with an Except input). -/
def analyze_image_features (color : ColorAnalysis) (texture : TextureAnalysis)
    (shape : ShapeAnalysis) : AnalysisResults :=
  let severity_score := calculate_image_severity color texture shape
  { color_analysis := color
    texture_analysis := texture
    shape_analysis := shape
    severity_score := severity_score
    confidence := image_confidence severity_score
    findings := generate_findings color texture shape }

/-- The result mapping of analyze_image.  The success dict and the
error dict have different key sets in the source, modelled with
optional fields: error is present exactly on the failure path, the
image_type and analysis_results entries exactly on the success path. -/
structure ImageResult where
  error : Option String
  image_type : Option String
  analysis_results : Option AnalysisResults
  recommendations : List String
  confidence_score : ℚ
  requires_professional_review : Bool
deriving Repr, DecidableEq

/-- analyze_image: the decode-and-extract pipeline either produces the
three feature groups or raises with some message (modelled as Except).
Success builds the analysis mapping; any failure is caught broadly and
converted to an error result with the generic recommendation, zero
confidence and the professional-review flag forced to true.  The
function is total: no exception escapes. -/
def analyze_image
    (pipeline : Except String (ColorAnalysis × TextureAnalysis × ShapeAnalysis))
    (image_type : String) : ImageResult :=
  match pipeline with
  | .ok (color, texture, shape) =>
      let analysis_results := analyze_image_features color texture shape
      { error := none
        image_type := some image_type
        analysis_results := some analysis_results
        recommendations :=
          generate_image_recommendations analysis_results.severity_score
        confidence_score := analysis_results.confidence
        requires_professional_review := analysis_results.severity_score > 6 }
  | .error e =>
      { error := some ("Image analysis failed: " ++ e)
        image_type := none
        analysis_results := none
        recommendations :=
          ["Please consult healthcare professional for proper evaluation"]
        confidence_score := 0
        requires_professional_review := true }

end ImageAnalyzer

/-! Definitions transcribed from the specification's wording, to be
compared with the embeddings of the source. -/

/-- Modelled from the spec: the documented priority step function —
CRITICAL if the severity score is at least 8, else URGENT if at least
6, else MODERATE if at least 4, else LOW. -/
def priority_spec (s : ℚ) : String :=
  if s ≥ 8 then "CRITICAL"
  else if s ≥ 6 then "URGENT"
  else if s ≥ 4 then "MODERATE"
  else "LOW"

/-- Modelled from the spec: severity is the average group score over
all severity keywords occurring in the text, capped at 10, with
default 3.0 when no keyword matches. -/
def severity_spec (text : List Char) : ℚ :=
  let matched :=
    SymptomAnalyzer.keyword_scores.filter fun kp => containsSub kp.1.toList text
  if matched.length = 0 then 3
  else min ((matched.map Prod.snd).sum / (matched.length : ℚ)) 10

/-- Modelled from the spec: image severity is the capped sum of the six
documented feature bonuses. -/
def image_severity_spec (color : ImageAnalyzer.ColorAnalysis)
    (texture : ImageAnalyzer.TextureAnalysis)
    (shape : ImageAnalyzer.ShapeAnalysis) : ℚ :=
  min ((if color.red_percentage > 20 then (3 : ℚ) else 0) +
       (if color.color_uniformity > 50 then 2 else 0) +
       (if texture.texture_variance > 1000 then 2 else 0) +
       (if texture.edge_density > 30 then 1 else 0) +
       (if shape.irregularity_score > 7 / 10 then 2 else 0) +
       (if shape.contour_count > 5 then 1 else 0)) 10

/-- Clamping x into [lo, hi], as written in the spec's confidence
formula clamp(severity x 10, 40, 85). -/
def clamp (x lo hi : ℚ) : ℚ :=
  max lo (min x hi)

/-! Helper lemmas shared by several proofs. -/

/-- The severity fold accumulates exactly the filtered score sum and
the filtered match count. -/
theorem foldl_severityStep (t : List Char) (l : List (String × ℚ)) :
    ∀ (a : ℚ) (n : ℕ),
      l.foldl (SymptomAnalyzer.severityStep t) (a, n) =
        (a + ((l.filter fun kp => containsSub kp.1.toList t).map Prod.snd).sum,
         n + (l.filter fun kp => containsSub kp.1.toList t).length) := by
  induction l with
  | nil => intro a n; simp
  | cons hd tl ih =>
      intro a n
      by_cases h : containsSub hd.1.toList t
      · simp only [List.foldl_cons, SymptomAnalyzer.severityStep, h, if_true, ih]
        simp only [List.filter_cons, h, if_true, List.map_cons, List.sum_cons,
          List.length_cons, Prod.mk.injEq]
        exact ⟨by ring, by omega⟩
      · simp only [List.foldl_cons, SymptomAnalyzer.severityStep, h, if_false, ih,
          List.filter_cons, Bool.false_eq_true]

/-- The queue-position fold counts the entries whose weight strictly
exceeds the given weight. -/
theorem foldl_position (w : ℚ) (l : List TriageLogic.Priority) :
    ∀ n : ℕ,
      l.foldl (fun pos patient =>
          if TriageLogic.priority_weights patient > w then pos + 1 else pos) n =
        n + (l.filter fun patient => w < TriageLogic.priority_weights patient).length := by
  induction l with
  | nil => intro n; simp
  | cons hd tl ih =>
      intro n
      by_cases h : w < TriageLogic.priority_weights hd
      · simp only [List.foldl_cons, gt_iff_lt, h, if_true, ih]
        simp [h]
        omega
      · simp only [List.foldl_cons, gt_iff_lt, h, if_false, ih]
        simp [h]

/-- Every keyword score in the table is nonnegative. -/
theorem keyword_scores_nonneg :
    ∀ kp ∈ SymptomAnalyzer.keyword_scores, 0 ≤ kp.2 := by decide

/-- Rounding the exact default severity 3 to two decimals leaves it
unchanged. -/
theorem roundTo_two_three : SymptomAnalyzer.roundTo 2 3 = 3 := by
  unfold SymptomAnalyzer.roundTo SymptomAnalyzer.roundHalfUp
  have hq : ((3 : ℚ) * 10 ^ 2 + 1 / 2) = 601 / 2 := by norm_num
  have hf : ⌊(601 / 2 : ℚ)⌋ = 300 := by
    rw [Int.floor_eq_iff]
    norm_num
  rw [hq, hf]
  norm_num

/-! The claims. -/

/-- C1: for every severity score s, both duplicated priority functions
(the symptom analyzer's calculate_priority and the triage logic's
get_priority_level) return the documented step function — CRITICAL if
s ≥ 8, else URGENT if s ≥ 6, else MODERATE if s ≥ 4, else LOW — and in
particular agree on every input. -/
theorem c1_priority_step_function_agreement (s : ℚ) :
    SymptomAnalyzer.calculate_priority s = priority_spec s ∧
    (TriageLogic.get_priority_level s).name = priority_spec s := by
  constructor
  · rfl
  · unfold TriageLogic.get_priority_level priority_spec
    split_ifs <;> rfl

/-- C2: for every text, the severity score of the symptom analyzer
equals the average group score over the severity keywords occurring in
the text (each matching keyword contributing its score once), capped
at 10, with default 3.0 when no keyword occurs. -/
theorem c2_severity_is_capped_average (t : List Char) :
    SymptomAnalyzer.calculate_severity_lightweight t = severity_spec t := by
  unfold SymptomAnalyzer.calculate_severity_lightweight severity_spec
  rw [foldl_severityStep t SymptomAnalyzer.keyword_scores 0 0]
  simp only [zero_add]

/-- C4: for every queue position, priority tier and per-patient
processing time, the estimated wait equals the minimum of the scaled
backlog (position times processing time times (1 - priority weight))
and the tier's threshold, and hence never exceeds the threshold. -/
theorem c4_wait_estimate_capped (n : ℕ) (p : TriageLogic.Priority) (t : ℚ) :
    TriageLogic.estimate_wait_time n p t =
      min ((n : ℚ) * t * (1 - TriageLogic.priority_weights p))
        (TriageLogic.wait_time_thresholds p) ∧
    TriageLogic.estimate_wait_time n p t ≤ TriageLogic.wait_time_thresholds p :=
  ⟨rfl, min_le_right _ _⟩

/-- C5: for all extracted image features, the image severity equals the
sum of the six documented bonuses (+3 red percentage > 20, +2 hue
standard deviation > 50, +2 texture variance > 1000, +1 edge density
> 30, +2 irregularity > 0.7, +1 contour count > 5), capped at 10. -/
theorem c5_image_severity_additive (color : ImageAnalyzer.ColorAnalysis)
    (texture : ImageAnalyzer.TextureAnalysis)
    (shape : ImageAnalyzer.ShapeAnalysis) :
    ImageAnalyzer.calculate_image_severity color texture shape =
      image_severity_spec color texture shape := by
  unfold ImageAnalyzer.calculate_image_severity image_severity_spec
  split_ifs <;> norm_num

/-- C8: whenever the image decode/processing pipeline fails, the result
of analyze_image carries the error field (no analysis results), its
professional-review flag is forced to true, and its recommendations
are exactly the single generic consult-a-professional message; the
embedded analyze_image is total, so no exception escapes. -/
theorem c8_image_error_path (e : String) (image_type : String) :
    (ImageAnalyzer.analyze_image (.error e) image_type).error =
      some ("Image analysis failed: " ++ e) ∧
    (ImageAnalyzer.analyze_image (.error e) image_type).analysis_results = none ∧
    (ImageAnalyzer.analyze_image (.error e) image_type).requires_professional_review
      = true ∧
    (ImageAnalyzer.analyze_image (.error e) image_type).recommendations =
      ["Please consult healthcare professional for proper evaluation"] :=
  ⟨rfl, rfl, rfl, rfl⟩

/-- C3: for every severity score and queue snapshot, the queue position
is one plus the number of queue entries whose priority weight strictly
exceeds the new entry's weight; in particular a CRITICAL entry
(severity at least 8) joining a queue of LOW entries gets position 1. -/
theorem c3_queue_position_counts_heavier (s : ℚ) (a : ℚ)
    (queue : List TriageLogic.Priority) :
    (TriageLogic.calculate_queue_position s a queue).1 =
      1 + (queue.filter fun p =>
        TriageLogic.priority_weights (TriageLogic.get_priority_level s) <
          TriageLogic.priority_weights p).length ∧
    (8 ≤ s → (∀ p ∈ queue, p = TriageLogic.Priority.LOW) →
      (TriageLogic.calculate_queue_position s a queue).1 = 1) := by
  have hpos : (TriageLogic.calculate_queue_position s a queue).1 =
      1 + (queue.filter fun p =>
        TriageLogic.priority_weights (TriageLogic.get_priority_level s) <
          TriageLogic.priority_weights p).length :=
    foldl_position (TriageLogic.priority_weights (TriageLogic.get_priority_level s))
      queue 1
  refine ⟨hpos, fun h8 hall => ?_⟩
  rw [hpos]
  have hcrit : TriageLogic.get_priority_level s = .CRITICAL := by
    unfold TriageLogic.get_priority_level
    rw [if_pos h8]
  rw [hcrit]
  have hnil : (queue.filter fun p =>
      TriageLogic.priority_weights .CRITICAL < TriageLogic.priority_weights p)
        = [] := by
    rw [List.filter_eq_nil_iff]
    intro p hp
    rw [hall p hp]
    simp only [TriageLogic.priority_weights, decide_eq_true_eq]
    norm_num
  rw [hnil]
  rfl

/-- Witness for C3 at severity 9 and a queue of two LOW entries. -/
theorem c3_queue_position_counts_heavier_witness :
    ((8 : ℚ) ≤ 9) ∧
    (∀ p ∈ [TriageLogic.Priority.LOW, TriageLogic.Priority.LOW],
      p = TriageLogic.Priority.LOW) ∧
    (TriageLogic.calculate_queue_position 9 0
      [TriageLogic.Priority.LOW, TriageLogic.Priority.LOW]).1 = 1 :=
  ⟨by norm_num, by decide,
    (c3_queue_position_counts_heavier 9 0 _).2 (by norm_num) (by decide)⟩

/-- C6: the empty symptom text yields severity score 3.0 and confidence
0.0, and any text containing no severity keyword after normalization
yields severity score 3.0; the embedded analyzer is total, so no error
is raised. -/
theorem c6_empty_text_defaults :
    ((SymptomAnalyzer.analyze_symptoms []).severity_score = 3 ∧
     (SymptomAnalyzer.analyze_symptoms []).confidence_score = 0) ∧
    ∀ t : List Char,
      (∀ kw ∈ SymptomAnalyzer.all_keywords,
        containsSub kw.toList (SymptomAnalyzer.clean_text t) = false) →
      (SymptomAnalyzer.analyze_symptoms t).severity_score = 3 := by
  have hdefault : ∀ t : List Char,
      (∀ kw ∈ SymptomAnalyzer.all_keywords,
        containsSub kw.toList (SymptomAnalyzer.clean_text t) = false) →
      (SymptomAnalyzer.analyze_symptoms t).severity_score = 3 := by
    intro t h
    have hs : SymptomAnalyzer.calculate_severity_lightweight
        (SymptomAnalyzer.clean_text t) = 3 := by
      unfold SymptomAnalyzer.calculate_severity_lightweight
      rw [foldl_severityStep]
      have hf : (SymptomAnalyzer.keyword_scores.filter
          fun kp => containsSub kp.1.toList (SymptomAnalyzer.clean_text t)) = [] := by
        rw [List.filter_eq_nil_iff]
        intro kp hkp
        simp only [h kp.1 (List.mem_map_of_mem Prod.fst hkp)]
        decide
      rw [hf]
      simp
    have hres : (SymptomAnalyzer.analyze_symptoms t).severity_score =
        SymptomAnalyzer.roundTo 2
          (SymptomAnalyzer.calculate_severity_lightweight
            (SymptomAnalyzer.clean_text t)) := rfl
    rw [hres, hs]
    exact roundTo_two_three
  refine ⟨⟨hdefault [] (by decide), by decide⟩, hdefault⟩

/-- Witness for C6 on the keyword-free text hello. -/
theorem c6_empty_text_defaults_witness :
    (∀ kw ∈ SymptomAnalyzer.all_keywords,
      containsSub kw.toList (SymptomAnalyzer.clean_text ("hello".toList)) = false) ∧
    (SymptomAnalyzer.analyze_symptoms ("hello".toList)).severity_score = 3 :=
  ⟨by decide, c6_empty_text_defaults.2 ("hello".toList) (by decide)⟩

/-- C7: image confidence is clamp(severity x 10, 40, 85) for every
severity score, and on features with red percentage 25, hue standard
deviation 10, texture variance 500, edge density 10, irregularity 0.2
and contour count 2 the severity is 3 (only the red rule fires) and
the confidence is 40 (the clamp floor applied to 30). -/
theorem c7_confidence_clamped (s : ℚ) :
    ImageAnalyzer.image_confidence s = clamp (s * 10) 40 85 ∧
    (ImageAnalyzer.analyze_image_features ⟨0, 0, 0, 25, 10⟩ ⟨500, 10, 90⟩
      ⟨2, 0, 8 / 10, 2 / 10⟩).severity_score = 3 ∧
    (ImageAnalyzer.analyze_image_features ⟨0, 0, 0, 25, 10⟩ ⟨500, 10, 90⟩
      ⟨2, 0, 8 / 10, 2 / 10⟩).confidence = 40 := by
  have hsev : ImageAnalyzer.calculate_image_severity ⟨0, 0, 0, 25, 10⟩
      ⟨500, 10, 90⟩ ⟨2, 0, 8 / 10, 2 / 10⟩ = 3 := by
    norm_num [ImageAnalyzer.calculate_image_severity]
  refine ⟨?_, hsev, ?_⟩
  · unfold ImageAnalyzer.image_confidence clamp
    rw [min_max_distrib_left, min_comm 85 (s * 10)]
    norm_num
  · have hc : (ImageAnalyzer.analyze_image_features ⟨0, 0, 0, 25, 10⟩ ⟨500, 10, 90⟩
        ⟨2, 0, 8 / 10, 2 / 10⟩).confidence =
        ImageAnalyzer.image_confidence
          (ImageAnalyzer.calculate_image_severity ⟨0, 0, 0, 25, 10⟩ ⟨500, 10, 90⟩
            ⟨2, 0, 8 / 10, 2 / 10⟩) := rfl
    rw [hc, hsev]
    norm_num [ImageAnalyzer.image_confidence]

/-- C9: the symptom analyzer's severity score and the image analyzer's
severity score lie in [0, 10] on every input. -/
theorem c9_severity_in_range :
    (∀ t : List Char,
      0 ≤ SymptomAnalyzer.calculate_severity_lightweight t ∧
      SymptomAnalyzer.calculate_severity_lightweight t ≤ 10) ∧
    (∀ (color : ImageAnalyzer.ColorAnalysis)
      (texture : ImageAnalyzer.TextureAnalysis)
      (shape : ImageAnalyzer.ShapeAnalysis),
      0 ≤ ImageAnalyzer.calculate_image_severity color texture shape ∧
      ImageAnalyzer.calculate_image_severity color texture shape ≤ 10) := by
  constructor
  · intro t
    unfold SymptomAnalyzer.calculate_severity_lightweight
    rw [foldl_severityStep]
    simp only [zero_add]
    by_cases h : (SymptomAnalyzer.keyword_scores.filter
        fun kp => containsSub kp.1.toList t).length = 0
    · rw [if_pos h]
      norm_num
    · rw [if_neg h]
      have hsum : 0 ≤ ((SymptomAnalyzer.keyword_scores.filter
          fun kp => containsSub kp.1.toList t).map Prod.snd).sum := by
        apply List.sum_nonneg
        intro x hx
        obtain ⟨kp, hkp, rfl⟩ := List.mem_map.mp hx
        exact keyword_scores_nonneg kp (List.mem_of_mem_filter hkp)
      refine ⟨le_min (div_nonneg hsum (Nat.cast_nonneg _)) (by norm_num),
        min_le_right _ _⟩
  · intro color texture shape
    simp only [ImageAnalyzer.calculate_image_severity]
    refine ⟨le_min ?_ (by norm_num), min_le_right _ _⟩
    split_ifs <;> norm_num

/-- C10: for every input text, the key_symptoms list has at most five
entries, no duplicates, and each entry is a severity keyword occurring
in the normalized text. -/
theorem c10_key_symptoms_shape (t : List Char) :
    (SymptomAnalyzer.analyze_symptoms t).key_symptoms.length ≤ 5 ∧
    (SymptomAnalyzer.analyze_symptoms t).key_symptoms.Nodup ∧
    ∀ s ∈ (SymptomAnalyzer.analyze_symptoms t).key_symptoms,
      s ∈ SymptomAnalyzer.all_keywords ∧
      containsSub s.toList (SymptomAnalyzer.clean_text t) = true := by
  have hk : (SymptomAnalyzer.analyze_symptoms t).key_symptoms =
      SymptomAnalyzer.extract_key_symptoms (SymptomAnalyzer.clean_text t) := rfl
  rw [hk]
  unfold SymptomAnalyzer.extract_key_symptoms
  refine ⟨?_, ?_, ?_⟩
  · rw [List.length_take]
    exact min_le_left _ _
  · exact (List.take_sublist _ _).nodup (List.nodup_dedup _)
  · intro s hs
    have hs1 : s ∈ (SymptomAnalyzer.all_keywords.filter
        fun kw => containsSub kw.toList (SymptomAnalyzer.clean_text t)).dedup :=
      List.take_subset _ _ hs
    rw [List.mem_dedup, List.mem_filter] at hs1
    exact hs1

/-- Witness for C10 on a text containing the keywords fever and
headache. -/
theorem c10_key_symptoms_shape_witness :
    ("fever" ∈ (SymptomAnalyzer.analyze_symptoms
      ("fever and headache".toList)).key_symptoms) ∧
    ("fever" ∈ SymptomAnalyzer.all_keywords ∧
      containsSub "fever".toList
        (SymptomAnalyzer.clean_text ("fever and headache".toList)) = true) :=
  ⟨by decide,
    (c10_key_symptoms_shape ("fever and headache".toList)).2.2 "fever" (by decide)⟩

end HealthTriage
